import Mathlib

/-!
Verification of the request-dispatch engine of LiveBudsCli, shallowly embedded
from `src/daemon/unix_socket/connection_handler.rs`.

The handler's effects on the outside world (messages sent to the physical
device, invocations of config persistence) are made explicit: every embedded
function returns, next to its result, the list of protocol messages it sent
and the number of times it invoked persistence.  The outcome of the opaque
"send command to device" and "persist config" capabilities is threaded in as
a parameter, so every behaviour of those collaborators is quantified over.
-/

namespace LiveBuds

/-- `Result<(), String>`, the result type used by the device send capability
(`BudsInfo::send`) and by config persistence (`Config::save`). -/
inductive RustResult where
  | ok
  | err (e : String)
deriving DecidableEq, Repr

/-- Equalizer presets of the external `galaxy_buds_live_rs` crate
(`bud_property::EqualizerType`). -/
inductive EqualizerType where
  | Normal
  | BassBoost
  | Soft
  | Dynamic
  | Clear
  | TrebleBoost
deriving DecidableEq, Repr

/-- The external crate's `EqualizerType::decode`: an out-of-range integer
falls back to the default preset (the spec notes this decoding rule belongs
to the external collaborator). -/
def EqualizerType.decode (v : Nat) : EqualizerType :=
  match v with
  | 0 => .Normal
  | 1 => .BassBoost
  | 2 => .Soft
  | 3 => .Dynamic
  | 4 => .Clear
  | 5 => .TrebleBoost
  | _ => .Normal

/-- ASCII lower-casing of one character (the case-insensitivity used by
`str_to_bool`). -/
def lowerChar : Char → Char
  | 'A' => 'a'
  | 'B' => 'b'
  | 'C' => 'c'
  | 'D' => 'd'
  | 'E' => 'e'
  | 'F' => 'f'
  | 'G' => 'g'
  | 'H' => 'h'
  | 'I' => 'i'
  | 'J' => 'j'
  | 'K' => 'k'
  | 'L' => 'l'
  | 'M' => 'm'
  | 'N' => 'n'
  | 'O' => 'o'
  | 'P' => 'p'
  | 'Q' => 'q'
  | 'R' => 'r'
  | 'S' => 's'
  | 'T' => 't'
  | 'U' => 'u'
  | 'V' => 'v'
  | 'W' => 'w'
  | 'X' => 'x'
  | 'Y' => 'y'
  | 'Z' => 'z'
  | c => c

/-- Modelled from the spec: `str_to_bool` lives in `src/daemon/utils.rs`,
which is not under `src/`.  The spec describes it as a permissive
string-to-bool rule: case-insensitive truthy tokens map to `true`,
everything else to `false`; no value is ever rejected as unparsable. -/
def str_to_bool (s : String) : Bool :=
  let l := s.data.map lowerChar
  l == "true".data || l == "1".data || l == "yes".data

/-- Rust's `str::parse::<u8>()`: an optional leading `+`, then one or more
ASCII digits, value at most 255; anything else is a parse error. -/
def parse_u8 (s : String) : Option Nat :=
  let l :=
    match s.data with
    | '+' :: rest => rest
    | l => l
  if l ≠ [] && l.all (·.isDigit) then
    let v := l.foldl (fun a c => a * 10 + (c.toNat - 48)) 0
    if v < 256 then some v else none
  else none

/-- The mirrored device state (`BudsInfoInner`), restricted to the fields the
connection handler reads or writes. -/
structure BudsInfoInner where
  address : String
  noise_reduction : Bool
  touchpads_blocked : Bool
  equalizer_type : EqualizerType
deriving DecidableEq, Repr

/-- A protocol message sent to the physical device: the three message
constructors the handler uses (`set_noise_reduction::new`,
`lock_touchpad::new`, `new_equalizer`). -/
inductive Msg where
  | set_noise_reduction (value : Bool)
  | lock_touchpad (value : Bool)
  | new_equalizer (eq : EqualizerType)
deriving DecidableEq, Repr

/-- Result of one Executor call: the `Result<(), String>` the source returns,
the (possibly updated) mirrored state, and the messages sent to the device. -/
structure ExecOut where
  res : RustResult
  device : BudsInfoInner
  sent : List Msg
deriving DecidableEq, Repr

/-- `set_buds_option` (connection_handler.rs lines 216-254): translate a
(key, value) pair into a device action, send it, and commit the mirrored
state only when the send succeeded.  `send` gives the device's response to
each message. -/
def set_buds_option (key value : String) (device_data : BudsInfoInner)
    (send : Msg → RustResult) : ExecOut :=
  match key with
  | "noise_reduction" =>
      let v := str_to_bool value
      let msg := Msg.set_noise_reduction v
      let res := send msg
      { res := res
        device :=
          if res = RustResult.ok then { device_data with noise_reduction := v }
          else device_data
        sent := [msg] }
  | "lock_touchpad" =>
      let v := str_to_bool value
      let msg := Msg.lock_touchpad v
      let res := send msg
      { res := res
        device :=
          if res = RustResult.ok then { device_data with touchpads_blocked := v }
          else device_data
        sent := [msg] }
  | "equalizer" =>
      match parse_u8 value with
      | some val =>
          let eq_type := EqualizerType.decode val
          let msg := Msg.new_equalizer eq_type
          let res := send msg
          { res := res
            device :=
              if res = RustResult.ok then { device_data with equalizer_type := eq_type }
              else device_data
            sent := [msg] }
      | none => { res := RustResult.err "could not parse value", device := device_data, sent := [] }
  | _ => { res := RustResult.err "Invaild key to set to", device := device_data, sent := [] }

/-- A decoded request (the wire schema of §6). -/
structure Request where
  cmd : String
  device : Option String
  opt_param1 : Option String
  opt_param2 : Option String
deriving DecidableEq, Repr

inductive Status where
  | success
  | error
deriving DecidableEq, Repr

/-- A response (the wire schema of §6). -/
structure Response (T : Type) where
  status : Status
  device : String
  message : Option String
  payload : Option T
deriving DecidableEq, Repr

/-- `Response::new_error(device, msg, payload)`. -/
def Response.new_error {T : Type} (device msg : String) (payload : Option T) : Response T :=
  { status := Status.error, device := device, message := some msg, payload := payload }

/-- `Response::new_success(device, payload)`. -/
def Response.new_success {T : Type} (device : String) (payload : Option T) : Response T :=
  { status := Status.success, device := device, message := none, payload := payload }

/-- Result of `set_buds_value` / `toggle_buds_value`: the response, the
(possibly updated) mirrored state, and the messages sent to the device. -/
structure ValueOut where
  resp : Response BudsInfoInner
  device : BudsInfoInner
  sent : List Msg
deriving DecidableEq, Repr

/-- `toggle_buds_value` (connection_handler.rs lines 149-184). -/
def toggle_buds_value (payload : Request) (address : String)
    (device_data : BudsInfoInner) (send : Msg → RustResult) : ValueOut :=
  match payload.opt_param1 with
  | none => ⟨Response.new_error address "Missing parameter" none, device_data, []⟩
  | some key =>
      let value? : Option String :=
        match key with
        | "noise_reduction" => some (toString (!device_data.noise_reduction))
        | "lock_touchpad" => some (toString (!device_data.touchpads_blocked))
        | _ => none
      match value? with
      | none => ⟨Response.new_error address "Invalid key" none, device_data, []⟩
      | some value =>
          let out := set_buds_option key value device_data send
          match out.res with
          | RustResult.ok => ⟨Response.new_success out.device.address none, out.device, out.sent⟩
          | RustResult.err e => ⟨Response.new_error address e none, out.device, out.sent⟩

/-- `set_buds_value` (connection_handler.rs lines 186-213). -/
def set_buds_value (payload : Request) (address : String)
    (device_data : BudsInfoInner) (send : Msg → RustResult) : ValueOut :=
  if payload.opt_param1.isNone || payload.opt_param2.isNone then
    ⟨Response.new_error address "Missing parameter" none, device_data, []⟩
  else
    let key := payload.opt_param1.getD ""
    let value := payload.opt_param2.getD ""
    let out := set_buds_option key value device_data send
    match out.res with
    | RustResult.ok => ⟨Response.new_success out.device.address none, out.device, out.sent⟩
    | RustResult.err e => ⟨Response.new_error address e none, out.device, out.sent⟩

/-- A per-device preference record (`BudsConfig`), restricted to the fields
the handler writes. -/
structure BudsConfig where
  auto_pause_music : Bool
  auto_resume_music : Bool
  low_battery_notification : Bool
deriving DecidableEq, Repr

/-- The Config Store: a mapping from device address to preference record,
represented as an association list with unique keys. -/
abbrev ConfigStore := List (String × BudsConfig)

/-- Modelled from the spec: the Config Store (`src/daemon/buds_config.rs`) is
not under `src/`; the spec describes it as a mapping from device address to a
preference record exposing an existence check and mutable-entry access.
Lookup of the entry for an address. -/
def get_device_config : ConfigStore → String → Option BudsConfig
  | [], _ => none
  | (a, c) :: rest, addr => if a = addr then some c else get_device_config rest addr

/-- Modelled from the spec: the Config Store's existence check
(`has_device_config`). -/
def has_device_config (config : ConfigStore) (addr : String) : Bool :=
  (get_device_config config addr).isSome

/-- Modelled from the spec: writing through the Config Store's mutable entry
access replaces the (unique) entry for the address, creating nothing. -/
def set_device_config : ConfigStore → String → BudsConfig → ConfigStore
  | [], _, _ => []
  | (a, c) :: rest, addr, newCfg =>
      if a = addr then (a, newCfg) :: rest else (a, c) :: set_device_config rest addr newCfg

/-- Result of `set_config_value`: the response, the resulting Config Store,
and how many times persistence (`Config::save`) was invoked. -/
structure ConfigOut where
  resp : Response BudsInfoInner
  store : ConfigStore
  saves : Nat
deriving DecidableEq, Repr

/-- `set_config_value` (connection_handler.rs lines 99-147).  `saveResult`
is the outcome the opaque persistence capability would report. -/
def set_config_value (payload : Request) (address : String)
    (config : ConfigStore) (saveResult : RustResult) : ConfigOut :=
  if ¬ has_device_config config address then
    ⟨Response.new_error address "Device has no config!" none, config, 0⟩
  else if payload.opt_param1.isNone || payload.opt_param2.isNone then
    ⟨Response.new_error address "Missing parameter" none, config, 0⟩
  else
    let key := payload.opt_param1.getD ""
    let value := str_to_bool (payload.opt_param2.getD "")
    match get_device_config config address with
    | none => ⟨Response.new_error address "error getting config!" none, config, 0⟩
    | some cfg =>
        let cfg? : Option BudsConfig :=
          match key with
          | "auto_pause" => some { cfg with auto_pause_music := value }
          | "auto_play" => some { cfg with auto_resume_music := value }
          | "low_battery_notification" => some { cfg with low_battery_notification := value }
          | _ => none
        match cfg? with
        | none => ⟨Response.new_error address "Invalid key" none, config, 0⟩
        | some newCfg =>
            let config2 := set_device_config config address newCfg
            match saveResult with
            | RustResult.err e =>
                ⟨Response.new_error address ("Err saving config: " ++ e) none, config2, 1⟩
            | RustResult.ok => ⟨Response.new_success address none, config2, 1⟩

/-- The Device Registry: a mapping from device address to mirrored state,
represented as an association list with unique keys. -/
abbrev Registry := List (String × BudsInfoInner)

/-- `ConnectionData::get_device_count`. -/
def get_device_count (reg : Registry) : Nat := reg.length

/-- `ConnectionData::get_device`. -/
def get_device : Registry → String → Option BudsInfoInner
  | [], _ => none
  | (a, d) :: rest, addr => if a = addr then some d else get_device rest addr

/-- Writing through `ConnectionData::get_device_mut` replaces the (unique)
entry for the address. -/
def updateDevice : Registry → String → BudsInfoInner → Registry
  | [], _, _ => []
  | (a, d) :: rest, addr, newD =>
      if a = addr then (a, newD) :: rest else (a, d) :: updateDevice rest addr newD

/-- Modelled from the spec: `ConnectionData::get_device_address`
(`src/daemon/bluetooth/rfcomm_connector.rs`) is not under `src/`.  The spec
says the request's `device` field is resolved to an address via the
Registry's lookup, an empty/absent value meaning "the" device when exactly
one is assumed by the caller; an unresolved field yields no address. -/
def get_device_address (reg : Registry) (device : String) : Option String :=
  if device = "" then reg.head?.map Prod.fst
  else if (get_device reg device).isSome then some device else none

/-- Result of one `handle_client` run: the response written to the client
(`none` when the connection is closed without one), the resulting Registry
and Config Store, the messages sent to the device, and the number of
persistence invocations. -/
structure HandlerOut where
  response : Option (Response BudsInfoInner)
  reg : Registry
  config : ConfigStore
  sent : List Msg
  saves : Nat
deriving DecidableEq, Repr

/-- `handle_client` (connection_handler.rs lines 20-96), from the point where
the request has been decoded.  The `get_device` lookups after a successful
resolution cannot fail (the source `unwrap`s them); the `none` branches below
are unreachable. -/
def handle_client (payload : Request) (reg : Registry) (config : ConfigStore)
    (send : Msg → RustResult) (saveResult : RustResult) : HandlerOut :=
  if get_device_count reg = 0 then
    ⟨some (Response.new_error "" "No connected device found" none), reg, config, [], 0⟩
  else
    match get_device_address reg (payload.device.getD "") with
    | none => ⟨some (Response.new_error "" "Device not found" none), reg, config, [], 0⟩
    | some device_addr =>
        match payload.cmd with
        | "get_status" =>
            ⟨some (Response.new_success device_addr (get_device reg device_addr)),
              reg, config, [], 0⟩
        | "set_value" =>
            match get_device reg device_addr with
            | some device =>
                let out := set_buds_value payload device_addr device send
                ⟨some out.resp, updateDevice reg device_addr out.device, config, out.sent, 0⟩
            | none => ⟨none, reg, config, [], 0⟩
        | "toggle_value" =>
            match get_device reg device_addr with
            | some device =>
                let out := toggle_buds_value payload device_addr device send
                ⟨some out.resp, updateDevice reg device_addr out.device, config, out.sent, 0⟩
            | none => ⟨none, reg, config, [], 0⟩
        | "set_config" =>
            let out := set_config_value payload device_addr config saveResult
            ⟨some out.resp, reg, out.store, [], out.saves⟩
        | _ => ⟨none, reg, config, [], 0⟩

/-!
### Lock model for the Registry's mutual exclusion

`handle_client` acquires the Registry's exclusive lock (`cd.lock().await`,
line 46) before device resolution; the guard lives until the function
returns, so the lock is held through the delegated action, including the
device send.  One task's lock-relevant behaviour is the straight-line
program `handlerProg` below.  Which device a task targets plays no role:
the lock is global, so the model covers two tasks targeting different
devices as well.
-/

inductive LockStep where
  | acquire
  | resolve
  | act
  | release
deriving DecidableEq, Repr

/-- The sequence of lock-relevant steps of one `handle_client` task:
acquire the Registry lock (line 46), resolve the device (lines 49-62),
perform the delegated action including device I/O (lines 67-90), and
release the lock when the guard is dropped on return. -/
def handlerProg : List LockStep := [.acquire, .resolve, .act, .release]

/-- Scheduler state for two concurrent `handle_client` tasks: each task's
position in `handlerProg` and the current owner of the Registry lock. -/
structure SchedState where
  pc0 : Nat
  pc1 : Nat
  owner : Option (Fin 2)
deriving DecidableEq, Repr

def pcOf (s : SchedState) (t : Fin 2) : Nat := if t = 0 then s.pc0 else s.pc1

def bump (s : SchedState) (t : Fin 2) : SchedState :=
  if t = 0 then { s with pc0 := s.pc0 + 1 } else { s with pc1 := s.pc1 + 1 }

/-- One scheduling choice: task `t` executes its next lock-relevant step if
it is enabled.  `acquire` blocks while the lock is owned; `release` frees
it; the steps in between just run (mutual exclusion is enforced solely by
`acquire` blocking). -/
def runStep (s : SchedState) (t : Fin 2) : Option SchedState :=
  match handlerProg.get? (pcOf s t) with
  | none => none
  | some LockStep.acquire =>
      if s.owner = none then some { bump s t with owner := some t } else none
  | some LockStep.release =>
      if s.owner = some t then some { bump s t with owner := none } else none
  | some _ => some (bump s t)

/-- Run a whole schedule (a sequence of task choices); `none` when the
schedule picks a blocked or finished task. -/
def runSched : SchedState → List (Fin 2) → Option SchedState
  | s, [] => some s
  | s, t :: rest =>
      match runStep s t with
      | none => none
      | some s2 => runSched s2 rest

def initState : SchedState := ⟨0, 0, none⟩

/-- Both tasks have run their full program. -/
def completed (s : SchedState) : Bool := s.pc0 == 4 && s.pc1 == 4

/-- The schedule running task 0 to completion, then task 1. -/
def serial01 : List (Fin 2) := [0, 0, 0, 0, 1, 1, 1, 1]

/-- The schedule running task 1 to completion, then task 0. -/
def serial10 : List (Fin 2) := [1, 1, 1, 1, 0, 0, 0, 0]

/-!
### Derived notions used to state the claims
-/

/-- The protocol message the Executor's set path sends for a (key, value)
pair: `none` when the key is unrecognized or, for `equalizer`, when the
value does not parse as a `u8`. -/
def execMsg (key value : String) : Option Msg :=
  match key with
  | "noise_reduction" => some (Msg.set_noise_reduction (str_to_bool value))
  | "lock_touchpad" => some (Msg.lock_touchpad (str_to_bool value))
  | "equalizer" => (parse_u8 value).map (fun v => Msg.new_equalizer (EqualizerType.decode v))
  | _ => none

/-- Committing one confirmed protocol message to the mirrored state. -/
def applyMsg (m : Msg) (d : BudsInfoInner) : BudsInfoInner :=
  match m with
  | Msg.set_noise_reduction v => { d with noise_reduction := v }
  | Msg.lock_touchpad v => { d with touchpads_blocked := v }
  | Msg.new_equalizer e => { d with equalizer_type := e }

/-- The config field a `set_config` key writes (§4.3 step 3): `none` for an
unrecognized key. -/
def updateConfigField (key : String) (value : Bool) (cfg : BudsConfig) : Option BudsConfig :=
  match key with
  | "auto_pause" => some { cfg with auto_pause_music := value }
  | "auto_play" => some { cfg with auto_resume_music := value }
  | "low_battery_notification" => some { cfg with low_battery_notification := value }
  | _ => none

/-- A schedule is serialization-safe when, if it runs to completion, it is
one of the two fully serialized schedules. -/
def schedOK (tr : List (Fin 2)) : Bool :=
  match runSched initState tr with
  | none => true
  | some s => !completed s || (tr == serial01 || tr == serial10)

/-!
### Demonstration values used by witnesses
-/

def demoDevice : BudsInfoInner :=
  { address := "aa:bb", noise_reduction := false, touchpads_blocked := false
    equalizer_type := EqualizerType.Normal }

def sendOk : Msg → RustResult := fun _ => RustResult.ok

def demoConfig : BudsConfig :=
  { auto_pause_music := false, auto_resume_music := false
    low_battery_notification := false }

/-!
## Theorems
-/

/-- C1: for every Executor call with a recognized key (`noise_reduction`,
`lock_touchpad`, or `equalizer` with a parseable value), exactly the
corresponding protocol message is sent, the call returns the device send's
outcome, the mirrored state is committed to the new value when the send
succeeds, and every mirrored state field is unchanged when the send
fails. -/
theorem c1_commit_on_confirmation (key value : String) (d : BudsInfoInner)
    (send : Msg → RustResult) (m : Msg) (hm : execMsg key value = some m) :
    (set_buds_option key value d send).sent = [m] ∧
    (set_buds_option key value d send).res = send m ∧
    (send m = RustResult.ok → (set_buds_option key value d send).device = applyMsg m d) ∧
    (∀ e, send m = RustResult.err e → (set_buds_option key value d send).device = d) := by
  unfold execMsg at hm
  split at hm
  · cases hm
    cases hres : send (Msg.set_noise_reduction (str_to_bool value)) <;>
      simp [set_buds_option, applyMsg, hres]
  · cases hm
    cases hres : send (Msg.lock_touchpad (str_to_bool value)) <;>
      simp [set_buds_option, applyMsg, hres]
  · cases hp : parse_u8 value with
    | none => rw [hp] at hm; cases hm
    | some v =>
        rw [hp] at hm
        cases hm
        cases hres : send (Msg.new_equalizer (EqualizerType.decode v)) <;>
          simp [set_buds_option, applyMsg, hp, hres]
  · cases hm

/-- Witness for C1 at key `noise_reduction`, value `"true"`, a succeeding
send: the message is sent and the mirrored state is committed. -/
theorem c1_commit_on_confirmation_witness :
    execMsg "noise_reduction" "true" = some (Msg.set_noise_reduction true) ∧
    (set_buds_option "noise_reduction" "true" demoDevice sendOk).sent
      = [Msg.set_noise_reduction true] ∧
    (set_buds_option "noise_reduction" "true" demoDevice sendOk).device
      = applyMsg (Msg.set_noise_reduction true) demoDevice := by
  refine ⟨by decide, ?_, ?_⟩
  · exact (c1_commit_on_confirmation "noise_reduction" "true" demoDevice sendOk
      (Msg.set_noise_reduction true) (by decide)).1
  · exact (c1_commit_on_confirmation "noise_reduction" "true" demoDevice sendOk
      (Msg.set_noise_reduction true) (by decide)).2.2.1 (by decide)

/-- C4 counterexample: on the Executor's set path an unrecognized key fails
with the reason `"Invaild key to set to"` (sic), not `"Invalid key"` as the
claim states. -/
theorem c4_counterexample :
    (set_buds_option "volume" "1" demoDevice sendOk).res
      = RustResult.err "Invaild key to set to" ∧
    (set_buds_option "volume" "1" demoDevice sendOk).res
      ≠ RustResult.err "Invalid key" := by
  decide

/-- C4 (amended): for every key other than the three recognized ones the set
path fails with reason `"Invaild key to set to"`; on the toggle path every
key other than `noise_reduction` and `lock_touchpad` (so `equalizer` too)
fails with `"Invalid key"`.  In both cases no device send occurs and the
mirrored state is unchanged. -/
theorem c4_invalid_key (key value : String) (payload : Request) (address : String)
    (d : BudsInfoInner) (send : Msg → RustResult)
    (h1 : key ≠ "noise_reduction") (h2 : key ≠ "lock_touchpad")
    (hp : payload.opt_param1 = some key) :
    (key ≠ "equalizer" →
      set_buds_option key value d send
        = ⟨RustResult.err "Invaild key to set to", d, []⟩) ∧
    toggle_buds_value payload address d send
      = ⟨Response.new_error address "Invalid key" none, d, []⟩ := by
  constructor
  · intro h3
    simp [set_buds_option, h1, h2, h3]
  · simp [toggle_buds_value, hp, h1, h2]

/-- Witness for C4 at key `"volume"`. -/
theorem c4_invalid_key_witness :
    set_buds_option "volume" "1" demoDevice sendOk
      = ⟨RustResult.err "Invaild key to set to", demoDevice, []⟩ ∧
    toggle_buds_value ⟨"toggle_value", none, some "volume", none⟩ "aa:bb" demoDevice sendOk
      = ⟨Response.new_error "aa:bb" "Invalid key" none, demoDevice, []⟩ := by
  have h := c4_invalid_key "volume" "1" ⟨"toggle_value", none, some "volume", none⟩
    "aa:bb" demoDevice sendOk (by decide) (by decide) (by decide)
  exact ⟨h.1 (by decide), h.2⟩

/-- C5 counterexample: for key `noise_reduction` and the value `"abc"`,
which is not parseable as a boolean, the Executor does not fail with a
parse error: it coerces the value permissively to `false`, sends the
message to the device, and succeeds. -/
theorem c5_counterexample :
    ("abc" ≠ "true" ∧ "abc" ≠ "false") ∧
    (set_buds_option "noise_reduction" "abc" demoDevice sendOk).sent
      = [Msg.set_noise_reduction false] ∧
    (set_buds_option "noise_reduction" "abc" demoDevice sendOk).res
      = RustResult.ok := by
  decide

/-- C5 (amended): only the `equalizer` key can fail with a parse error:
when its value does not parse as a `u8` the call fails with
`"could not parse value"`, no device send occurs and the mirrored state is
unchanged.  For `noise_reduction` and `lock_touchpad` every value is
permissively coerced to a boolean and never rejected. -/
theorem c5_equalizer_parse_error (value : String) (d : BudsInfoInner)
    (send : Msg → RustResult) (h : parse_u8 value = none) :
    set_buds_option "equalizer" value d send
      = ⟨RustResult.err "could not parse value", d, []⟩ := by
  simp [set_buds_option, h]

/-- Witness for C5 at the unparseable value `"abc"`. -/
theorem c5_equalizer_parse_error_witness :
    set_buds_option "equalizer" "abc" demoDevice sendOk
      = ⟨RustResult.err "could not parse value", demoDevice, []⟩ := by
  exact c5_equalizer_parse_error "abc" demoDevice sendOk (by decide)

/-- C10: `set_value` with either parameter absent, and `toggle_value` with
`opt_param1` absent, fail with `"Missing parameter"` before any device
send: no message is sent and the mirrored state is unchanged. -/
theorem c10_missing_parameter (payload : Request) (address : String)
    (d : BudsInfoInner) (send : Msg → RustResult) :
    (payload.opt_param1 = none ∨ payload.opt_param2 = none →
      set_buds_value payload address d send
        = ⟨Response.new_error address "Missing parameter" none, d, []⟩) ∧
    (payload.opt_param1 = none →
      toggle_buds_value payload address d send
        = ⟨Response.new_error address "Missing parameter" none, d, []⟩) := by
  constructor
  · intro h
    rcases h with h | h <;> simp [set_buds_value, h]
  · intro h
    simp [toggle_buds_value, h]

/-- Witness for C10: both sub-handlers on a request with no parameters. -/
theorem c10_missing_parameter_witness :
    set_buds_value ⟨"set_value", none, none, none⟩ "aa:bb" demoDevice sendOk
      = ⟨Response.new_error "aa:bb" "Missing parameter" none, demoDevice, []⟩ ∧
    toggle_buds_value ⟨"toggle_value", none, none, none⟩ "aa:bb" demoDevice sendOk
      = ⟨Response.new_error "aa:bb" "Missing parameter" none, demoDevice, []⟩ := by
  exact ⟨(c10_missing_parameter ⟨"set_value", none, none, none⟩ "aa:bb" demoDevice sendOk).1
      (Or.inl rfl),
    (c10_missing_parameter ⟨"toggle_value", none, none, none⟩ "aa:bb" demoDevice sendOk).2 rfl⟩

/-- C6: a `set_config` request for an address with no config entry yields
the error `"Device has no config!"` before any other validation (for every
payload, however malformed), and the Config Store is unchanged — in
particular no entry is created — and persistence is never invoked. -/
theorem c6_no_config_entry (payload : Request) (address : String)
    (config : ConfigStore) (saveResult : RustResult)
    (h : has_device_config config address = false) :
    set_config_value payload address config saveResult
      = ⟨Response.new_error address "Device has no config!" none, config, 0⟩ := by
  simp [set_config_value, h]

/-- Witness for C6: the spec's own example, key `auto_pause`,
value `"false"`, empty Config Store. -/
theorem c6_no_config_entry_witness :
    set_config_value ⟨"set_config", none, some "auto_pause", some "false"⟩ "aa:bb" []
        RustResult.ok
      = ⟨Response.new_error "aa:bb" "Device has no config!" none, [], 0⟩ := by
  exact c6_no_config_entry ⟨"set_config", none, some "auto_pause", some "false"⟩ "aa:bb" []
    RustResult.ok (by decide)

/-- C7: `set_config` with an existing entry, both parameters present and a
recognized key writes the permissively parsed boolean into the matching
field and then invokes persistence exactly once; on persistence success the
response is a success with null payload, on persistence failure the
response embeds the failure's message, and in both cases the store keeps
the written field (no rollback). -/
theorem c7_config_write_then_save (payload : Request) (address : String)
    (config : ConfigStore) (saveResult : RustResult) (key value : String)
    (cfg cfg2 : BudsConfig)
    (hc : get_device_config config address = some cfg)
    (h1 : payload.opt_param1 = some key)
    (h2 : payload.opt_param2 = some value)
    (hk : updateConfigField key (str_to_bool value) cfg = some cfg2) :
    set_config_value payload address config saveResult
      = ⟨(match saveResult with
          | RustResult.ok => Response.new_success address none
          | RustResult.err e =>
              Response.new_error address ("Err saving config: " ++ e) none),
         set_device_config config address cfg2, 1⟩ := by
  have hh : has_device_config config address = true := by
    simp [has_device_config, hc]
  unfold updateConfigField at hk
  split at hk <;> cases hk <;>
    cases saveResult <;>
      simp [set_config_value, hh, h1, h2, hc]

/-- Witness for C7: the spec's own example, key `low_battery_notification`,
value `"true"`, existing entry, persistence succeeding. -/
theorem c7_config_write_then_save_witness :
    set_config_value ⟨"set_config", none, some "low_battery_notification", some "true"⟩
        "aa:bb" [("aa:bb", demoConfig)] RustResult.ok
      = ⟨Response.new_success "aa:bb" none,
         [("aa:bb", { demoConfig with low_battery_notification := true })], 1⟩ := by
  exact c7_config_write_then_save
    ⟨"set_config", none, some "low_battery_notification", some "true"⟩ "aa:bb"
    [("aa:bb", demoConfig)] RustResult.ok "low_battery_notification" "true"
    demoConfig { demoConfig with low_battery_notification := true }
    (by decide) rfl rfl (by decide)

/-- The round trip `toggle_buds_value` performs: a mirrored boolean is
rendered with Rust's `Display` (`"true"`/`"false"`) and re-parsed by
`str_to_bool` inside `set_buds_option`. -/
theorem str_to_bool_toString (b : Bool) : str_to_bool (toString b) = b := by
  cases b <;> decide

/-- C3: `toggle_value` with key `noise_reduction` or `lock_touchpad` sends
exactly one message carrying the logical negation of the currently mirrored
boolean, whatever the rest of the request (in particular `opt_param2`)
contains; toggling `lock_touchpad` while `touchpads_blocked` is `false`
sends `true`. -/
theorem c3_toggle_sends_negation (payload : Request) (address : String)
    (d : BudsInfoInner) (send : Msg → RustResult) :
    (payload.opt_param1 = some "noise_reduction" →
      (toggle_buds_value payload address d send).sent
        = [Msg.set_noise_reduction (!d.noise_reduction)]) ∧
    (payload.opt_param1 = some "lock_touchpad" →
      (toggle_buds_value payload address d send).sent
        = [Msg.lock_touchpad (!d.touchpads_blocked)]) := by
  constructor
  · intro h
    cases hres : send (Msg.set_noise_reduction (!d.noise_reduction)) <;>
      simp [toggle_buds_value, h, set_buds_option, str_to_bool_toString, hres]
  · intro h
    cases hres : send (Msg.lock_touchpad (!d.touchpads_blocked)) <;>
      simp [toggle_buds_value, h, set_buds_option, str_to_bool_toString, hres]

/-- Witness for C3: the spec's own scenario — toggling `lock_touchpad` with
mirrored `touchpads_blocked = false` sends lock (`true`). -/
theorem c3_toggle_sends_negation_witness :
    (toggle_buds_value ⟨"toggle_value", none, some "lock_touchpad", some "ignored"⟩
        "aa:bb" demoDevice sendOk).sent
      = [Msg.lock_touchpad true] := by
  exact (c3_toggle_sends_negation ⟨"toggle_value", none, some "lock_touchpad", some "ignored"⟩
    "aa:bb" demoDevice sendOk).2 rfl

/-- C2 counterexample: a request with unrecognized cmd `"bogus"` against an
empty Registry does get a response (the `"No connected device found"`
error), because the device-count and resolution checks run before cmd
dispatch; the claim's "regardless of the Registry's contents and of the
device field" fails. -/
theorem c2_counterexample :
    (handle_client ⟨"bogus", none, none, none⟩ [] [] sendOk RustResult.ok).response
      = some (Response.new_error "" "No connected device found" none) ∧
    (handle_client ⟨"bogus", none, none, none⟩ [] [] sendOk RustResult.ok).response
      ≠ none := by
  decide

/-- C2 (amended): for every request with an unrecognized cmd, provided the
Registry is non-empty and the device field resolves, no response is written
and the connection is closed with all state untouched; when the Registry is
empty or the device does not resolve, a not-found error response is written
before cmd dispatch. -/
theorem c2_unknown_cmd_dropped (payload : Request) (reg : Registry)
    (config : ConfigStore) (send : Msg → RustResult) (saveResult : RustResult)
    (h1 : payload.cmd ≠ "get_status") (h2 : payload.cmd ≠ "set_value")
    (h3 : payload.cmd ≠ "toggle_value") (h4 : payload.cmd ≠ "set_config")
    (h5 : reg ≠ []) (addr : String)
    (h6 : get_device_address reg (payload.device.getD "") = some addr) :
    handle_client payload reg config send saveResult = ⟨none, reg, config, [], 0⟩ := by
  have hc : ¬ get_device_count reg = 0 := by
    simp [get_device_count, h5]
  simp only [handle_client, h6]
  rw [if_neg hc]

/-- Witness for C2: a `"bogus"` cmd against a one-device Registry with a
resolving device field is dropped without a response. -/
theorem c2_unknown_cmd_dropped_witness :
    handle_client ⟨"bogus", some "aa:bb", none, none⟩ [("aa:bb", demoDevice)] []
        sendOk RustResult.ok
      = ⟨none, [("aa:bb", demoDevice)], [], [], 0⟩ := by
  exact c2_unknown_cmd_dropped ⟨"bogus", some "aa:bb", none, none⟩ [("aa:bb", demoDevice)]
    [] sendOk RustResult.ok (by decide) (by decide) (by decide) (by decide) (by decide)
    "aa:bb" (by decide)

/-- An empty Registry resolves no device field. -/
theorem get_device_address_nil (q : String) : get_device_address [] q = none := by
  simp [get_device_address, get_device]

/-- Every error response `set_buds_value` produces carries the resolved
address passed to it. -/
theorem set_buds_value_error_device (payload : Request) (address : String)
    (d : BudsInfoInner) (send : Msg → RustResult) :
    (set_buds_value payload address d send).resp.status = Status.error →
    (set_buds_value payload address d send).resp.device = address := by
  simp only [set_buds_value]
  repeat' split
  all_goals intro h
  all_goals first
    | rfl
    | simp [Response.new_success] at h

/-- Every error response `toggle_buds_value` produces carries the resolved
address passed to it. -/
theorem toggle_buds_value_error_device (payload : Request) (address : String)
    (d : BudsInfoInner) (send : Msg → RustResult) :
    (toggle_buds_value payload address d send).resp.status = Status.error →
    (toggle_buds_value payload address d send).resp.device = address := by
  simp only [toggle_buds_value]
  repeat' split
  all_goals intro h
  all_goals first
    | rfl
    | simp [Response.new_success] at h

/-- Every response `set_config_value` produces carries the resolved address
passed to it. -/
theorem set_config_value_resp_device (payload : Request) (address : String)
    (config : ConfigStore) (saveResult : RustResult) :
    (set_config_value payload address config saveResult).resp.device = address := by
  simp only [set_config_value]
  repeat' split
  all_goals rfl

/-- C9: error responses produced during device resolution (`"No connected
device found"`, `"Device not found"`) carry the empty string in their
device field, while every error response produced after successful
resolution carries the resolved address. -/
theorem c9_error_device_field (payload : Request) (reg : Registry)
    (config : ConfigStore) (send : Msg → RustResult) (saveResult : RustResult) :
    (reg = [] →
      (handle_client payload reg config send saveResult).response
        = some (Response.new_error "" "No connected device found" none)) ∧
    (get_device_address reg (payload.device.getD "") = none → reg ≠ [] →
      (handle_client payload reg config send saveResult).response
        = some (Response.new_error "" "Device not found" none)) ∧
    (∀ addr r, get_device_address reg (payload.device.getD "") = some addr →
      (handle_client payload reg config send saveResult).response = some r →
      r.status = Status.error → r.device = addr) := by
  refine ⟨?_, ?_, ?_⟩
  · intro h
    subst h
    simp [handle_client, get_device_count]
  · intro h hne
    have hc : ¬ get_device_count reg = 0 := by
      simp [get_device_count, hne]
    simp only [handle_client, h]
    rw [if_neg hc]
  · intro addr r h hr hstat
    rcases reg with _ | ⟨p, rest⟩
    · rw [get_device_address_nil] at h
      cases h
    · have hc : ¬ get_device_count (p :: rest) = 0 := by
        simp [get_device_count]
      simp only [handle_client, h] at hr
      rw [if_neg hc] at hr
      split at hr
      · simp only [Option.some.injEq] at hr
        subst hr
        simp [Response.new_success] at hstat
      · split at hr
        · simp only [Option.some.injEq] at hr
          subst hr
          exact set_buds_value_error_device _ _ _ _ hstat
        · cases hr
      · split at hr
        · simp only [Option.some.injEq] at hr
          subst hr
          exact toggle_buds_value_error_device _ _ _ _ hstat
        · cases hr
      · simp only [Option.some.injEq] at hr
        subst hr
        exact set_config_value_resp_device _ _ _ _
      · cases hr

/-- Witness for C9: a post-resolution error (missing parameter on
`set_value`) carries the resolved address `"aa:bb"` in its device field. -/
theorem c9_error_device_field_witness :
    (Response.new_error "aa:bb" "Missing parameter" (none : Option BudsInfoInner)).device
      = "aa:bb" := by
  exact (c9_error_device_field ⟨"set_value", none, none, none⟩ [("aa:bb", demoDevice)]
    [] sendOk RustResult.ok).2.2 "aa:bb"
    (Response.new_error "aa:bb" "Missing parameter" none) (by decide) (by decide) (by decide)

/-- Each executed scheduling step advances exactly one task's program
counter by one. -/
theorem runStep_sum (s : SchedState) (t : Fin 2) (s2 : SchedState)
    (h : runStep s t = some s2) : s2.pc0 + s2.pc1 = s.pc0 + s.pc1 + 1 := by
  have hb : ∀ u : Fin 2, (bump s u).pc0 + (bump s u).pc1 = s.pc0 + s.pc1 + 1 := by
    intro u
    unfold bump
    split <;> simp <;> omega
  unfold runStep at h
  split at h
  · cases h
  · split at h
    · cases h
      simpa using hb t
    · cases h
  · split at h
    · cases h
      simpa using hb t
    · cases h
  · cases h
    exact hb t

/-- Over a whole schedule, the sum of the program counters grows by the
number of executed steps. -/
theorem runSched_sum (tr : List (Fin 2)) :
    ∀ s s2 : SchedState, runSched s tr = some s2 →
      s2.pc0 + s2.pc1 = s.pc0 + s.pc1 + tr.length := by
  induction tr with
  | nil =>
      intro s s2 h
      cases h
      simp
  | cons t rest ih =>
      intro s s2 h
      unfold runSched at h
      split at h
      · cases h
      · rename_i s1 hstep
        have h1 := runStep_sum s t s1 hstep
        have h2 := ih s1 s2 h
        simp [List.length]
        omega

/-- Exhaustive check of all 256 schedules of length 8: every one that runs
to completion is one of the two serializations. -/
theorem schedOK_len8 :
    ∀ a b c d e f g i : Fin 2, schedOK [a, b, c, d, e, f, g, i] = true := by
  decide

/-- C8: any two concurrent `handle_client` tasks — whatever devices they
target — are fully serialized by the Registry's exclusive lock: every
schedule of their lock-relevant steps (`handlerProg`) that the mutex
semantics admits to completion runs one task's acquire-resolve-act-release
block in full before the other task executes anything. -/
theorem c8_fully_serialized (tr : List (Fin 2)) (s : SchedState)
    (hrun : runSched initState tr = some s) (hdone : completed s = true) :
    tr = serial01 ∨ tr = serial10 := by
  have hsum := runSched_sum tr initState s hrun
  have hc : s.pc0 = 4 ∧ s.pc1 = 4 := by
    simpa [completed] using hdone
  have hlen : tr.length = 8 := by
    simp [initState] at hsum
    omega
  rcases tr with _ | ⟨a, _ | ⟨b, _ | ⟨c, _ | ⟨d, _ | ⟨e, _ | ⟨f, _ | ⟨g, _ | ⟨i, _ | ⟨j, rest⟩⟩⟩⟩⟩⟩⟩⟩⟩ <;>
    simp [List.length] at hlen
  have hok := schedOK_len8 a b c d e f g i
  simp only [schedOK, hrun, hdone] at hok
  simpa using hok

/-- Witness for C8: the serialized schedule `serial01` itself runs to
completion. -/
theorem c8_fully_serialized_witness :
    serial01 = serial01 ∨ serial01 = serial10 := by
  exact c8_fully_serialized serial01 ⟨4, 4, none⟩ (by decide) (by decide)

end LiveBuds
